import Mathlib

/-
Verification development for the Cluster reconciliation core of
a-cool-train/cluster-api.

Shallow embedding of:
  * controllers/cluster_controller_phases.go — reconcilePhase,
    reconcileExternal, reconcileInfrastructure, reconcileControlPlane,
    reconcileEtcdCluster;
  * the clusterctl proxy's ListResources (resource enumerator).

External collaborators (the API-server client, `external.Get`,
`annotations.IsPaused`, `conditions.*`, `controllerutil.SetControllerReference`,
patch helpers, watch registration) are modelled as oracles in an `Env`
structure or as small pure functions whose behaviour follows the
specification of the thin interface the core consumes.
-/

namespace ClusterApi

/-- Key-value lookup in an association list; models reading a Go
`map[string]string` (labels, annotations). -/
def lookupStr : List (String × String) → String → Option String
  | [], _ => none
  | (k', v) :: rest, k => if k' = k then some v else lookupStr rest k

/-- Key-value upsert in an association list; models `m[k] = v` on a Go
`map[string]string`. -/
def setStr : List (String × String) → String → String → List (String × String)
  | [], k, v => [(k, v)]
  | (k', v') :: rest, k, v =>
    if k' = k then (k, v) :: rest else (k', v') :: setStr rest k v

/-- Key removal from an association list; models
`unstructured.RemoveNestedField(..., key)` on an annotation map. -/
def removeStr (xs : List (String × String)) (k : String) : List (String × String) :=
  xs.filter (fun kv => !(kv.1 = k : Bool))

/-- Concatenation of the images of a list under a list-valued function. -/
def concatMapList (f : α → List β) : List α → List β
  | [] => []
  | a :: as => f a ++ concatMapList f as

/- Constants from api/v1beta1 (cluster_phase_types.go, condition_consts.go,
common_types.go) and cmd/clusterctl/api/v1alpha3. -/

/-- Phase string `Pending` (clusterv1.ClusterPhasePending). -/
def clusterPhasePending : String := "Pending"

/-- Phase string `Provisioning`. -/
def clusterPhaseProvisioning : String := "Provisioning"

/-- Phase string `Provisioned`. -/
def clusterPhaseProvisioned : String := "Provisioned"

/-- Phase string `Failed`. -/
def clusterPhaseFailed : String := "Failed"

/-- Phase string `Deleting`. -/
def clusterPhaseDeleting : String := "Deleting"

/-- Label key clusterv1.ClusterLabelName. -/
def clusterLabelName : String := "cluster.x-k8s.io/cluster-name"

/-- The paused-object marker key (source name: clusterv1.PausedAnno=tation,
value "cluster.x-k8s.io/paused"). -/
def pausedAnn : String := "cluster.x-k8s.io/paused"

/-- Label key clusterv1.ProviderLabelName. -/
def providerLabelName : String := "cluster.x-k8s.io/provider"

/-- Label key clusterctlv1.ClusterctlCoreLabelName. -/
def clusterctlCoreLabelName : String := "clusterctl.cluster.x-k8s.io/core"

/-- Label value clusterctlv1.ClusterctlCoreLabelCertManagerValue. -/
def clusterctlCoreLabelCertManagerValue : String := "cert-manager"

/-- Condition type clusterv1.ReadyCondition. -/
def readyCondition : String := "Ready"

/-- Condition type clusterv1.InfrastructureReadyCondition. -/
def infrastructureReadyCondition : String := "InfrastructureReady"

/-- Condition type clusterv1.ControlPlaneReadyCondition. -/
def controlPlaneReadyCondition : String := "ControlPlaneReady"

/-- Condition type clusterv1.ControlPlaneInitializedCondition. -/
def controlPlaneInitializedCondition : String := "ControlPlaneInitialized"

/-- Condition type clusterv1.ManagedExternalEtcdClusterInitializedCondition. -/
def managedExternalEtcdClusterInitializedCondition : String := "ManagedEtcdInitialized"

/-- Condition type clusterv1.ManagedExternalEtcdClusterReadyCondition. -/
def managedExternalEtcdClusterReadyCondition : String := "ManagedEtcdReady"

/-- Reason clusterv1.WaitingForInfrastructureFallbackReason. -/
def waitingForInfrastructureFallbackReason : String := "WaitingForInfrastructure"

/-- Reason clusterv1.WaitingForControlPlaneFallbackReason. -/
def waitingForControlPlaneFallbackReason : String := "WaitingForControlPlane"

/-- Reason clusterv1.WaitingForControlPlaneProviderInitializedReason. -/
def waitingForControlPlaneProviderInitializedReason : String :=
  "WaitingForControlPlaneProviderInitialized"

/-- Reason clusterv1.WaitingForEtcdClusterInitializedReason. -/
def waitingForEtcdClusterInitializedReason : String :=
  "WaitingForEtcdClusterProviderInitialized"

/-- clusterv1.APIEndpoint: host/port of the cluster control plane. -/
structure APIEndpoint where
  host : String := ""
  port : Int := 0
deriving DecidableEq

/-- APIEndpoint.IsValid: host non-empty and port non-zero. -/
def APIEndpoint.isValid (e : APIEndpoint) : Bool :=
  !(e.host = "" : Bool) && !(e.port = 0 : Bool)

/-- corev1.ObjectReference as consumed by the reconciler (group/version/kind
carried in apiVersion+kind, plus name and namespace). -/
structure ObjectReference where
  apiVersion : String := ""
  kind : String := ""
  name : String := ""
  namespaceRef : String := ""
deriving DecidableEq

/-- clusterv1.ConditionStatus (True / False / Unknown). -/
inductive ConditionStatus where
  | sTrue
  | sFalse
  | sUnknown
deriving DecidableEq

/-- clusterv1.Condition. The Go struct field `Type` is rendered `condType`;
`lastTransitionTime` is omitted (wall-clock time is outside the model). -/
structure Condition where
  condType : String := ""
  status : ConditionStatus := ConditionStatus.sUnknown
  reason : String := ""
  severity : String := ""
  message : String := ""
deriving DecidableEq

/-- conditions.Get: first condition with the given type. -/
def getCond : List Condition → String → Option Condition
  | [], _ => none
  | c :: rest, t => if c.condType = t then some c else getCond rest t

/-- conditions.Set: replace the condition with the same type in place, or
append when absent (lastTransitionTime bookkeeping omitted). -/
def setCond : List Condition → Condition → List Condition
  | [], c => [c]
  | x :: rest, c => if x.condType = c.condType then c :: rest else x :: setCond rest c

/-- OwnerReference entry as written by controllerutil.SetControllerReference:
the owner's name plus the controller flag. -/
structure OwnerRef where
  name : String := ""
  controller : Bool := false
deriving DecidableEq

/-- Status block of a referenced provider object: the well-known fields the
core extracts from the unstructured tree (`status.ready`,
`status.initialized`, `status.failureReason`, `status.failureMessage`,
`status.failureDomains`, `status.conditions`). -/
structure ObjStatus where
  ready : Bool := false
  initialized : Bool := false
  failureReason : String := ""
  failureMessage : String := ""
  failureDomains : Option (List (String × Bool)) := none
  conditions : List Condition := []
deriving DecidableEq

/-- A referenced provider object (unstructured.Unstructured): opaque tree
restricted to the fields the core reads or writes. -/
structure Obj where
  apiVersion : String := ""
  kind : String := ""
  name : String := ""
  namespaceObj : String := ""
  annotations : List (String × String) := []
  labels : List (String × String) := []
  ownerReferences : List OwnerRef := []
  deletionTimestamp : Bool := false
  status : ObjStatus := {}
  specControlPlaneEndpoint : Option APIEndpoint := none
deriving DecidableEq

/-- clusterv1.ClusterSpec: the fields the core reads or writes. -/
structure ClusterSpec where
  infrastructureRef : Option ObjectReference := none
  controlPlaneRef : Option ObjectReference := none
  managedExternalEtcdRef : Option ObjectReference := none
  controlPlaneEndpoint : APIEndpoint := {}
deriving DecidableEq

/-- clusterv1.ClusterStatus: the fields the core reads or writes. -/
structure ClusterStatus where
  phase : String := ""
  infrastructureReady : Bool := false
  controlPlaneReady : Bool := false
  managedExternalEtcdReady : Bool := false
  managedExternalEtcdInitialized : Bool := false
  failureReason : Option String := none
  failureMessage : Option String := none
  failureDomains : List (String × Bool) := []
  conditions : List Condition := []
deriving DecidableEq

/-- clusterv1.Cluster: metadata fields the core consults
(deletionTimestamp as a presence flag) plus spec and status. -/
structure Cluster where
  name : String := ""
  namespaceCluster : String := ""
  annotations : List (String × String) := []
  deletionTimestamp : Bool := false
  spec : ClusterSpec := {}
  status : ClusterStatus := {}
deriving DecidableEq

/-- reconcilePhase (cluster_controller_phases.go lines 45-65): five clauses
evaluated in order, each unconditionally overwriting status.phase when its
condition holds. -/
def reconcilePhase (cluster : Cluster) : Cluster :=
  let cluster :=
    if cluster.status.phase = "" then
      {cluster with status := {cluster.status with phase := clusterPhasePending}}
    else cluster
  let cluster :=
    if cluster.spec.infrastructureRef.isSome then
      {cluster with status := {cluster.status with phase := clusterPhaseProvisioning}}
    else cluster
  let cluster :=
    if cluster.status.infrastructureReady && cluster.spec.controlPlaneEndpoint.isValid then
      {cluster with status := {cluster.status with phase := clusterPhaseProvisioned}}
    else cluster
  let cluster :=
    if cluster.status.failureReason.isSome || cluster.status.failureMessage.isSome then
      {cluster with status := {cluster.status with phase := clusterPhaseFailed}}
    else cluster
  if cluster.deletionTimestamp then
    {cluster with status := {cluster.status with phase := clusterPhaseDeleting}}
  else cluster

/-- Outcome of `external.Get` as observed by the reconciler: the object, a
not-found condition (apierrors.IsNotFound on the error's cause), or any
other fetch error. -/
inductive GetResult where
  | notFound
  | fetchError
  | found (obj : Obj)
deriving DecidableEq

/-- Error channel of a sub-reconciler run. `updateRequeueError` records the
branch that returns both `ctrl.Result{Requeue: true}` and a non-nil error;
`nilDeref` records a Go nil-pointer dereference (calling `external.Get`
with a nil reference, or reading a nil `ReconcileOutput.Result`). -/
inductive RErr where
  | contractError
  | getError
  | helperError
  | ownerRefError
  | patchError
  | watchError
  | updateRequeueError
  | fieldError
  | nilDeref
deriving DecidableEq

/-- Side effects performed against the API server that the claims talk
about: patching the external object, full updates (pause / resume of the
control plane). -/
inductive Effect where
  | patch (obj : Obj)
  | update (obj : Obj)
deriving DecidableEq

/-- external.ReconcileOutput: the fetched (and mutated) object, a requeue
interval in seconds, and the paused flag. -/
structure ReconcileOutput where
  result : Option Obj := none
  requeueAfter : Nat := 0
  paused : Bool := false
deriving DecidableEq

/-- ctrl.Result. -/
structure CtrlResult where
  requeue : Bool := false
  requeueAfter : Nat := 0
deriving DecidableEq

/-- Oracles for the external collaborators: API-contract conversion,
`external.Get` keyed by reference and namespace, the patch helper
construction, patching, watch registration, and full updates. Each records
only success/failure plus, for Get, the fetched object. -/
structure Env where
  updateReferenceAPIContract : ObjectReference → Option ObjectReference := fun r => some r
  get : ObjectReference → String → GetResult := fun _ _ => GetResult.notFound
  newHelperOk : Bool := true
  patchOk : Obj → Bool := fun _ => true
  watchOk : Bool := true
  update : Obj → Bool := fun _ => true

/-- Modelled from the spec: annotations.HasPausedAnnotation — the object
carries the `cluster.x-k8s.io/paused` marker (util/annotations is not part
of the provided sources). -/
def hasPausedAnn (annots : List (String × String)) : Bool :=
  (lookupStr annots pausedAnn).isSome

/-- Modelled from the spec: annotations.IsPaused — "if the fetched object
or the `Cluster` itself carries the `cluster.x-k8s.io/paused` annotation"
(util/annotations is not part of the provided sources). -/
def isPaused (cluster : Cluster) (obj : Obj) : Bool :=
  hasPausedAnn obj.annotations || hasPausedAnn cluster.annotations

/-- Modelled from the spec: controllerutil.SetControllerReference — set a
controller-type owner reference from the Cluster to the object, failing if
a different controller owner already exists (controller-runtime is not part
of the provided sources). -/
def setControllerReference (cluster : Cluster) (obj : Obj) : Option Obj :=
  if obj.ownerReferences.any (fun o => o.controller && !(o.name = cluster.name : Bool)) then
    none
  else
    let owners := OwnerRef.mk cluster.name true ::
      obj.ownerReferences.filter (fun o => !(o.name = cluster.name : Bool))
    some {obj with ownerReferences := owners}

/-- The cluster-name label write of reconcileExternal (lines 101-107):
`labels[clusterv1.ClusterLabelName] = cluster.Name`. -/
def withClusterLabel (cluster : Cluster) (obj : Obj) : Obj :=
  {obj with labels := setStr obj.labels clusterLabelName cluster.name}

/-- schema.GroupVersion. -/
structure GroupVersion where
  group : String := ""
  version : String := ""
deriving DecidableEq

/-- Split a character list on `/` (the concrete computation behind
`strings.Split` for this single separator). -/
def splitCharsOnSlash : List Char → List (List Char)
  | [] => [[]]
  | c :: rest =>
    let r := splitCharsOnSlash rest
    if c = '/' then [] :: r
    else
      match r with
      | [] => [[c]]
      | x :: xs => (c :: x) :: xs

/-- schema.ParseGroupVersion: empty or "/" parses to the empty
GroupVersion; no slash means a bare version; one slash splits group and
version; more slashes are an error (returned as `none`). -/
def parseGroupVersion (gv : String) : Option GroupVersion :=
  if gv = "" ∨ gv = "/" then some {}
  else
    match (splitCharsOnSlash gv.data).map (fun cs => String.mk cs) with
    | [v] => some {group := "", version := v}
    | [g, v] => some {group := g, version := v}
    | _ => none

/-- Group/version part of obj.GroupVersionKind() as printed by `%v`
(schema.FromAPIVersionAndKind; empty group/version on a parse failure). -/
def gvkGroupVersionPart (apiVersion : String) : String :=
  match parseGroupVersion apiVersion with
  | some gv => gv.group ++ "/" ++ gv.version
  | none => "" ++ "/" ++ ""

/-- The citation prepended to a surfaced failure message (reconcileExternal
lines 128-133): `Failure detected from referenced resource %v with name
%q: %s` with the object's GroupVersionKind and name. -/
def failureCitation (obj : Obj) : String :=
  "Failure detected from referenced resource " ++ gvkGroupVersionPart obj.apiVersion ++
    ", Kind=" ++ obj.kind ++ " with name \"" ++ obj.name ++ "\": "

/-- The failure-surfacing step of reconcileExternal (lines 119-133): a
non-empty failureReason is copied verbatim, a non-empty failureMessage is
copied behind the citation; empty fields leave the Cluster untouched. -/
def applyFailuresFrom (cluster : Cluster) (obj : Obj) : Cluster :=
  let cluster :=
    if !(obj.status.failureReason = "" : Bool) then
      {cluster with status := {cluster.status with failureReason := some obj.status.failureReason}}
    else cluster
  if !(obj.status.failureMessage = "" : Bool) then
    {cluster with status := {cluster.status with
      failureMessage := some (failureCitation obj ++ obj.status.failureMessage)}}
  else cluster

/-- reconcileExternal (cluster_controller_phases.go lines 68-136): contract
conversion, fetch (not-found → requeue 30s), pause gate, adoption (owner
reference + cluster-name label), patch, watch registration, failure
surfacing. -/
def reconcileExternal (env : Env) (cluster : Cluster) (ref : ObjectReference) :
    Except RErr (Cluster × ReconcileOutput × List Effect) :=
  match env.updateReferenceAPIContract ref with
  | none => Except.error RErr.contractError
  | some ref =>
    match env.get ref cluster.namespaceCluster with
    | GetResult.notFound => Except.ok (cluster, {requeueAfter := 30}, [])
    | GetResult.fetchError => Except.error RErr.getError
    | GetResult.found obj =>
      if isPaused cluster obj then Except.ok (cluster, {paused := true}, [])
      else if env.newHelperOk = false then Except.error RErr.helperError
      else
        match setControllerReference cluster obj with
        | none => Except.error RErr.ownerRefError
        | some obj =>
          let obj := withClusterLabel cluster obj
          if env.patchOk obj = false then Except.error RErr.patchError
          else if env.watchOk = false then Except.error RErr.watchError
          else Except.ok (applyFailuresFrom cluster obj, {result := some obj}, [Effect.patch obj])

/-- conditions.IsTrue on the Cluster: the condition of the given type exists
with status True. -/
def isTrueCond (cluster : Cluster) (t : String) : Bool :=
  match getCond cluster.status.conditions t with
  | some c => c.status = ConditionStatus.sTrue
  | none => false

/-- conditions.MarkTrue on the Cluster. -/
def markTrue (cluster : Cluster) (t : String) : Cluster :=
  {cluster with status := {cluster.status with
    conditions := setCond cluster.status.conditions
      {condType := t, status := ConditionStatus.sTrue}}}

/-- conditions.MarkFalse on the Cluster with reason, severity and message. -/
def markFalse (cluster : Cluster) (t : String) (reason severity message : String) : Cluster :=
  {cluster with status := {cluster.status with
    conditions := setCond cluster.status.conditions
      {condType := t, status := ConditionStatus.sFalse, reason := reason,
       severity := severity, message := message}}}

/-- Modelled from the spec: conditions.SetMirror with WithFallbackValue —
copy the subordinate's `Ready` condition under the target type, or
synthesize a fallback from the observed ready bit (util/conditions is not
part of the provided sources). -/
def setMirrorCondition (cluster : Cluster) (t : String) (obj : Obj)
    (fallback : Bool) (fallbackReason : String) : Cluster :=
  let cond :=
    match getCond obj.status.conditions readyCondition with
    | some rc => {rc with condType := t}
    | none =>
      if fallback then {condType := t, status := ConditionStatus.sTrue}
      else {condType := t, status := ConditionStatus.sFalse,
            reason := fallbackReason, severity := "Info"}
  {cluster with status := {cluster.status with
    conditions := setCond cluster.status.conditions cond}}

/-- reconcileInfrastructure (cluster_controller_phases.go lines 139-199):
skip when infrastructureRef is unset; run the generic external reconciler;
propagate requeue/pause; stop on a deleted subordinate; mirror readiness;
extract controlPlaneEndpoint (missing field is a hard error) and
failureDomains (missing field is benign). -/
def reconcileInfrastructure (env : Env) (cluster : Cluster) :
    Except RErr (Cluster × CtrlResult × List Effect) :=
  match cluster.spec.infrastructureRef with
  | none => Except.ok (cluster, {}, [])
  | some ref =>
    match reconcileExternal env cluster ref with
    | Except.error e => Except.error e
    | Except.ok (cluster, out, effs) =>
      if out.requeueAfter > 0 then Except.ok (cluster, {requeueAfter := out.requeueAfter}, effs)
      else if out.paused then Except.ok (cluster, {}, effs)
      else
        match out.result with
        | none => Except.error RErr.nilDeref
        | some infraConfig =>
          if infraConfig.deletionTimestamp then Except.ok (cluster, {}, effs)
          else
            let ready := infraConfig.status.ready
            let cluster := {cluster with status := {cluster.status with infrastructureReady := ready}}
            let cluster := setMirrorCondition cluster infrastructureReadyCondition infraConfig
              ready waitingForInfrastructureFallbackReason
            if ready = false then Except.ok (cluster, {}, effs)
            else
              let endpointStep : Except RErr Cluster :=
                if cluster.spec.controlPlaneEndpoint.isValid then Except.ok cluster
                else
                  match infraConfig.specControlPlaneEndpoint with
                  | none => Except.error RErr.fieldError
                  | some ep =>
                    Except.ok {cluster with spec := {cluster.spec with controlPlaneEndpoint := ep}}
              match endpointStep with
              | Except.error e => Except.error e
              | Except.ok cluster =>
                let cluster :=
                  match infraConfig.status.failureDomains with
                  | none => cluster
                  | some fd => {cluster with status := {cluster.status with failureDomains := fd}}
                Except.ok (cluster, {}, effs)

/-- Tail of reconcileControlPlane after the etcd-gating block
(cluster_controller_phases.go lines 241-288): generic external reconcile of
the control-plane reference, readiness mirroring, and the
ControlPlaneInitialized latch. -/
def reconcileControlPlaneMain (env : Env) (cluster : Cluster) (cpRef : ObjectReference)
    (effs0 : List Effect) : Except RErr (Cluster × CtrlResult × List Effect) :=
  match reconcileExternal env cluster cpRef with
  | Except.error e => Except.error e
  | Except.ok (cluster, out, effs) =>
    let effs := effs0 ++ effs
    if out.requeueAfter > 0 then Except.ok (cluster, {requeueAfter := out.requeueAfter}, effs)
    else if out.paused then Except.ok (cluster, {}, effs)
    else
      match out.result with
      | none => Except.error RErr.nilDeref
      | some controlPlaneConfig =>
        if controlPlaneConfig.deletionTimestamp then Except.ok (cluster, {}, effs)
        else
          let ready := controlPlaneConfig.status.ready
          let cluster := {cluster with status := {cluster.status with controlPlaneReady := ready}}
          let cluster := setMirrorCondition cluster controlPlaneReadyCondition controlPlaneConfig
            ready waitingForControlPlaneFallbackReason
          let cluster :=
            if isTrueCond cluster controlPlaneInitializedCondition = false then
              if controlPlaneConfig.status.initialized then
                markTrue cluster controlPlaneInitializedCondition
              else
                markFalse cluster controlPlaneInitializedCondition
                  waitingForControlPlaneProviderInitializedReason "Info"
                  "Waiting for control plane provider to indicate the control plane has been initialized"
            else cluster
          Except.ok (cluster, {}, effs)

/-- reconcileControlPlane (cluster_controller_phases.go lines 202-289):
skip when controlPlaneRef is unset; when managedExternalEtcdRef is set and
the etcd object is not ready, pause the control-plane object by REPLACING
its annotation map with the single paused entry (SetAnnotations on line
233) through a full update; then run the generic part. -/
def reconcileControlPlane (env : Env) (cluster : Cluster) :
    Except RErr (Cluster × CtrlResult × List Effect) :=
  match cluster.spec.controlPlaneRef with
  | none => Except.ok (cluster, {}, [])
  | some cpRef =>
    match cluster.spec.managedExternalEtcdRef with
    | none => reconcileControlPlaneMain env cluster cpRef []
    | some etcdRef =>
      match env.get etcdRef cluster.namespaceCluster with
      | GetResult.notFound => Except.ok (cluster, {requeueAfter := 30}, [])
      | GetResult.fetchError => Except.error RErr.getError
      | GetResult.found externalEtcd =>
        if externalEtcd.status.ready = false then
          match env.get cpRef cluster.namespaceCluster with
          | GetResult.notFound => Except.ok (cluster, {requeueAfter := 30}, [])
          | GetResult.fetchError => Except.error RErr.getError
          | GetResult.found controlPlane =>
            let controlPlane := {controlPlane with annotations := [(pausedAnn, "true")]}
            if env.update controlPlane = false then Except.error RErr.updateRequeueError
            else reconcileControlPlaneMain env cluster cpRef [Effect.update controlPlane]
        else reconcileControlPlaneMain env cluster cpRef []

/-- Tail of reconcileEtcdCluster after the resume-control-plane block
(cluster_controller_phases.go lines 343-363): mirror the etcd readiness
condition, then the ManagedEtcdInitialized latch (evaluated only while the
condition is not yet True; a transition also writes
status.managedExternalEtcdInitialized = true). -/
def etcdTailCluster (cluster : Cluster) (etcdPlaneConfig : Obj) (ready : Bool) : Cluster :=
  let cluster := setMirrorCondition cluster managedExternalEtcdClusterReadyCondition
    etcdPlaneConfig ready waitingForEtcdClusterInitializedReason
  if isTrueCond cluster managedExternalEtcdClusterInitializedCondition = false then
    if etcdPlaneConfig.status.initialized then
      markTrue
        {cluster with status := {cluster.status with managedExternalEtcdInitialized := true}}
        managedExternalEtcdClusterInitializedCondition
    else
      markFalse cluster managedExternalEtcdClusterInitializedCondition
        waitingForEtcdClusterInitializedReason "Info"
        "Waiting for etcd cluster provider to indicate the etcd has been initialized"
  else cluster

/-- reconcileEtcdCluster (cluster_controller_phases.go lines 291-364): skip
when managedExternalEtcdRef is unset; run the generic external reconciler;
propagate requeue/pause; stop on a deleted subordinate; mirror readiness
into status.managedExternalEtcdReady; when etcd is ready, fetch the
control-plane object (NOTE: `cluster.Spec.ControlPlaneRef` is dereferenced
without a nil check on line 326 — a nil reference is a Go nil-pointer
dereference, modelled as `RErr.nilDeref`) and remove its paused marker via
a full update; then mirror the condition and run the initialized latch. -/
def reconcileEtcdCluster (env : Env) (cluster : Cluster) :
    Except RErr (Cluster × CtrlResult × List Effect) :=
  match cluster.spec.managedExternalEtcdRef with
  | none => Except.ok (cluster, {}, [])
  | some etcdRef =>
    match reconcileExternal env cluster etcdRef with
    | Except.error e => Except.error e
    | Except.ok (cluster, out, effs) =>
      if out.requeueAfter > 0 then Except.ok (cluster, {requeueAfter := out.requeueAfter}, effs)
      else if out.paused then Except.ok (cluster, {}, effs)
      else
        match out.result with
        | none => Except.error RErr.nilDeref
        | some etcdPlaneConfig =>
          if etcdPlaneConfig.deletionTimestamp then Except.ok (cluster, {}, effs)
          else
            let ready := etcdPlaneConfig.status.ready
            let cluster := {cluster with status := {cluster.status with managedExternalEtcdReady := ready}}
            if ready then
              match cluster.spec.controlPlaneRef with
              | none => Except.error RErr.nilDeref
              | some cpRef =>
                match env.get cpRef cluster.namespaceCluster with
                | GetResult.notFound => Except.ok (cluster, {requeueAfter := 30}, effs)
                | GetResult.fetchError => Except.error RErr.getError
                | GetResult.found controlPlane =>
                  if hasPausedAnn controlPlane.annotations then
                    let controlPlane :=
                      {controlPlane with annotations := removeStr controlPlane.annotations pausedAnn}
                    if env.update controlPlane = false then Except.error RErr.updateRequeueError
                    else
                      Except.ok (etcdTailCluster cluster etcdPlaneConfig ready, {},
                        effs ++ [Effect.update controlPlane])
                  else Except.ok (etcdTailCluster cluster etcdPlaneConfig ready, {}, effs)
            else Except.ok (etcdTailCluster cluster etcdPlaneConfig ready, {}, effs)

/- Resource enumerator (clusterctl proxy, src/unnamed/part_000). -/

/-- metav1.GroupVersionKind.String(): `group "/" version ", Kind=" kind`.
These strings populate the `crdsToExclude` string set. -/
def gvkString (group version kind : String) : String :=
  group ++ "/" ++ version ++ ", Kind=" ++ kind

/-- metav1.APIResource restricted to the fields ListResources consults:
plural name, kind, scope and supported verbs. -/
structure APIResource where
  name : String := ""
  kind : String := ""
  namespaced : Bool := false
  verbs : List String := []
deriving DecidableEq

/-- metav1.APIResourceList: one discovery group-version and its resources. -/
structure APIResourceList where
  groupVersion : String := ""
  apiResources : List APIResource := []
deriving DecidableEq

/-- apiextensionsv1.CustomResourceDefinition restricted to what
ListResources reads: metadata labels, spec.group, the declared version
names and spec.names.kind. -/
structure CustomResourceDefinition where
  labels : List (String × String) := []
  group : String := ""
  versions : List String := []
  kind : String := ""
deriving DecidableEq

/-- The exclusion-set computation of ListResources (part_000 lines
187-207): for every CRD matched either because the *input selector* maps
`clusterctl.cluster.x-k8s.io/core` to `cert-manager`, or because the CRD
carries any `cluster.x-k8s.io/provider` label, insert the GVK string of
every declared version. -/
def crdsToExclude (labels : List (String × String))
    (crdList : List CustomResourceDefinition) : List String :=
  concatMapList
    (fun crd =>
      let isCoreComponent :=
        match lookupStr labels clusterctlCoreLabelName with
        | some component => (component = clusterctlCoreLabelCertManagerValue : Bool)
        | none => false
      let isProviderResource := (lookupStr crd.labels providerLabelName).isSome
      if isCoreComponent || isProviderResource then
        crd.versions.map (fun v => gvkString crd.group v crd.kind)
      else [])
    crdList

/-- discovery.SupportsAllVerbs{Verbs: ["list", "delete"]}. -/
def supportsAllVerbs (rk : APIResource) : Bool :=
  rk.verbs.contains "list" && rk.verbs.contains "delete"

/-- The discard of resource kinds duplicated between `extensions/v1beta1`
and their modern groups (part_000 lines 215-219). -/
def skipDuplicateResource (groupVersion : String) (rk : APIResource) : Bool :=
  (groupVersion = "extensions/v1beta1" : Bool) &&
    ((rk.name = "daemonsets" : Bool) || (rk.name = "deployments" : Bool) ||
     (rk.name = "replicasets" : Bool) || (rk.name = "networkpolicies" : Bool) ||
     (rk.name = "ingresses" : Bool))

/-- client.MatchingLabels: every selector pair is present in the object's
labels. -/
def matchesLabels (sel objLabels : List (String × String)) : Bool :=
  sel.all (fun kv => lookupStr objLabels kv.1 == some kv.2)

/-- listObjByGVK (part_000 lines 296-307) against a store of live objects:
list the objects of the requested group-version and kind matching the
label selector, optionally restricted to one namespace. A NotFound from
the server yields an empty list, which the filter subsumes. -/
def listObjByGVK (store : List Obj) (groupVersion kind : String)
    (labels : List (String × String)) (ns : Option String) : List Obj :=
  store.filter (fun o =>
    (o.apiVersion = groupVersion : Bool) && (o.kind = kind : Bool) &&
      matchesLabels labels o.labels &&
      (match ns with
       | some n => (o.namespaceObj = n : Bool)
       | none => true))

/-- Inner loop of ListResources over the resources of one discovery group
(part_000 lines 214-250): skip extensions/v1beta1 duplicates, parse the
group-version (parse failure aborts the whole call), skip excluded CRD
kinds, then list namespaced resources per namespace and cluster-scoped
resources globally, appending in order. -/
def listResourcesForKinds (store : List Obj) (excl : List String)
    (labels : List (String × String)) (namespaces : List String)
    (groupVersion : String) : List APIResource → Except String (List Obj)
  | [] => Except.ok []
  | rk :: rest =>
    if skipDuplicateResource groupVersion rk then
      listResourcesForKinds store excl labels namespaces groupVersion rest
    else
      match parseGroupVersion groupVersion with
      | none => Except.error "failed to parse GroupVersion"
      | some gv =>
        if gvkString gv.group gv.version rk.kind ∈ excl then
          listResourcesForKinds store excl labels namespaces groupVersion rest
        else
          let objs :=
            if rk.namespaced then
              concatMapList (fun n => listObjByGVK store groupVersion rk.kind labels (some n))
                namespaces
            else listObjByGVK store groupVersion rk.kind labels none
          match listResourcesForKinds store excl labels namespaces groupVersion rest with
          | Except.error e => Except.error e
          | Except.ok ys => Except.ok (objs ++ ys)

/-- Outer loop of ListResources over the discovery groups (part_000 lines
213-251). -/
def listResourcesForGroups (store : List Obj) (excl : List String)
    (labels : List (String × String)) (namespaces : List String) :
    List APIResourceList → Except String (List Obj)
  | [] => Except.ok []
  | g :: rest =>
    match listResourcesForKinds store excl labels namespaces g.groupVersion g.apiResources with
    | Except.error e => Except.error e
    | Except.ok xs =>
      match listResourcesForGroups store excl labels namespaces rest with
      | Except.error e => Except.error e
      | Except.ok ys => Except.ok (xs ++ ys)

/-- ListResources (part_000 lines 164-253) for a healthy API server:
compute the exclusion set from the CRD list and the input selector, filter
the discovery list to resources supporting both `list` and `delete`, then
enumerate matching objects from the store. -/
def ListResources (store : List Obj) (resourceList : List APIResourceList)
    (crdList : List CustomResourceDefinition) (labels : List (String × String))
    (namespaces : List String) : Except String (List Obj) :=
  let excl := crdsToExclude labels crdList
  let filtered := resourceList.map
    (fun g => {g with apiResources := g.apiResources.filter supportsAllVerbs})
  listResourcesForGroups store excl labels namespaces filtered

/- Projection helpers for stating facts about concrete sub-reconciler runs. -/

/-- The Cluster carried by a successful sub-reconciler run. -/
def clusterOutOf (r : Except RErr (Cluster × CtrlResult × List Effect)) : Option Cluster :=
  r.toOption.map (fun t => t.1)

/-- The effect trace of a successful sub-reconciler run (empty on error). -/
def effectsOutOf (r : Except RErr (Cluster × CtrlResult × List Effect)) : List Effect :=
  match r with
  | Except.ok t => t.2.2
  | Except.error _ => []

/-- The objects sent through full updates in a successful run. -/
def updatesOf (r : Except RErr (Cluster × CtrlResult × List Effect)) : List Obj :=
  (effectsOutOf r).foldr
    (fun e acc => match e with | Effect.update o => o :: acc | _ => acc) []

/-- The object list of a successful ListResources call (empty on error). -/
def okListOf (r : Except String (List Obj)) : List Obj :=
  match r with
  | Except.ok xs => xs
  | Except.error _ => []

/- Concrete inputs used by the per-claim witnesses and counterexamples. -/

/-- A Cluster whose stale phase is `Failed` while both failure fields are
clear: input for the C1 counterexample. -/
def c1CexCluster : Cluster := {status := {phase := clusterPhaseFailed}}

/-- A Cluster with a failure reason set and no deletion timestamp: input for
the C1 witness. -/
def c1WCluster : Cluster := {status := {failureReason := some "InvalidImage"}}

/-- A deleted Cluster with both failure fields set: input for the C2
witness. -/
def c2WCluster : Cluster :=
  {deletionTimestamp := true,
   status := {failureReason := some "InvalidImage", failureMessage := some "boom"}}

/-- Reference to the managed external etcd object (C3 scenario). -/
def c3EtcdRef : ObjectReference :=
  {apiVersion := "etcdcluster.cluster.x-k8s.io/v1beta1", kind := "EtcdadmCluster", name := "etcd1"}

/-- A ready, initialized etcd object (C3 scenario). -/
def c3EtcdObj : Obj :=
  {apiVersion := "etcdcluster.cluster.x-k8s.io/v1beta1", kind := "EtcdadmCluster",
   name := "etcd1", namespaceObj := "ns", status := {ready := true, initialized := true}}

/-- A Cluster with a managed external etcd reference but NO control-plane
reference (C3 failing input). -/
def c3Cluster : Cluster :=
  {name := "c", namespaceCluster := "ns",
   spec := {managedExternalEtcdRef := some c3EtcdRef}}

/-- Environment for the C3 run: the etcd object is found and every other
collaborator succeeds. -/
def c3Env : Env :=
  {get := fun r _ => if r = c3EtcdRef then GetResult.found c3EtcdObj else GetResult.notFound}

/-- Control-plane reference of the C4 scenario. -/
def c4CpRef : ObjectReference :=
  {apiVersion := "controlplane.cluster.x-k8s.io/v1beta1", kind := "KubeadmControlPlane",
   name := "cp1"}

/-- Managed-etcd reference of the C4 scenario. -/
def c4EtcdRef : ObjectReference :=
  {apiVersion := "etcdcluster.cluster.x-k8s.io/v1beta1", kind := "EtcdadmCluster",
   name := "etcd1"}

/-- A not-yet-ready etcd object (C4 scenario). -/
def c4Etcd : Obj :=
  {apiVersion := "etcdcluster.cluster.x-k8s.io/v1beta1", kind := "EtcdadmCluster",
   name := "etcd1", namespaceObj := "ns", status := {ready := false}}

/-- A control-plane object carrying a pre-existing annotation `foo = bar`
(C4 scenario). -/
def c4Cp : Obj :=
  {apiVersion := "controlplane.cluster.x-k8s.io/v1beta1", kind := "KubeadmControlPlane",
   name := "cp1", namespaceObj := "ns", annotations := [("foo", "bar")]}

/-- A Cluster with both a control-plane and a managed-etcd reference (C4
scenario). -/
def c4Cluster : Cluster :=
  {name := "c", namespaceCluster := "ns",
   spec := {controlPlaneRef := some c4CpRef, managedExternalEtcdRef := some c4EtcdRef}}

/-- Environment for the C4 run: etcd and control-plane objects are found,
updates and patches succeed. -/
def c4Env : Env :=
  {get := fun r _ =>
    if r = c4EtcdRef then GetResult.found c4Etcd
    else if r = c4CpRef then GetResult.found c4Cp
    else GetResult.notFound}

/-- A Cluster with no infrastructure reference whose infrastructureReady
bit is (staleley) true: C5 input. -/
def c5Cluster : Cluster := {name := "c", status := {infrastructureReady := true}}

/-- Selector of the C6 scenario: the aws provider label. -/
def c6Labels : List (String × String) := [(providerLabelName, "aws")]

/-- The provider-labeled AWSCluster CRD declaring versions v1 and v2 (C6
scenario). -/
def c6CrdList : List CustomResourceDefinition :=
  [{labels := [(providerLabelName, "aws")], group := "infrastructure.cluster.x-k8s.io",
    versions := ["v1", "v2"], kind := "AWSCluster"}]

/-- Discovery list of the C6 scenario: AWSClusters in both versions plus
apps/v1 Deployments, all supporting list and delete. -/
def c6ResourceList : List APIResourceList :=
  [{groupVersion := "infrastructure.cluster.x-k8s.io/v1",
    apiResources := [{name := "awsclusters", kind := "AWSCluster", namespaced := true,
                      verbs := ["list", "delete", "get"]}]},
   {groupVersion := "infrastructure.cluster.x-k8s.io/v2",
    apiResources := [{name := "awsclusters", kind := "AWSCluster", namespaced := true,
                      verbs := ["list", "delete", "get"]}]},
   {groupVersion := "apps/v1",
    apiResources := [{name := "deployments", kind := "Deployment", namespaced := true,
                      verbs := ["list", "delete", "get"]}]}]

/-- The aws controller Deployment carrying the provider label (C6
scenario). -/
def c6Deployment : Obj :=
  {apiVersion := "apps/v1", kind := "Deployment", name := "capa-controller-manager",
   namespaceObj := "default", labels := [(providerLabelName, "aws")]}

/-- Store of live objects for the C6 scenario: AWSClusters in v1 and v2
plus the controller Deployment, all labeled with the aws provider label. -/
def c6Store : List Obj :=
  [{apiVersion := "infrastructure.cluster.x-k8s.io/v1", kind := "AWSCluster",
    name := "aws1", namespaceObj := "default", labels := [(providerLabelName, "aws")]},
   {apiVersion := "infrastructure.cluster.x-k8s.io/v2", kind := "AWSCluster",
    name := "aws2", namespaceObj := "default", labels := [(providerLabelName, "aws")]},
   c6Deployment]

/-- Managed-etcd reference of the C7 witness. -/
def c7EtcdRef : ObjectReference :=
  {apiVersion := "etcdcluster.cluster.x-k8s.io/v1beta1", kind := "EtcdadmCluster",
   name := "etcd1"}

/-- A not-ready etcd object (C7 witness). -/
def c7EtcdObj : Obj :=
  {apiVersion := "etcdcluster.cluster.x-k8s.io/v1beta1", kind := "EtcdadmCluster",
   name := "etcd1", namespaceObj := "ns", status := {ready := false, initialized := false}}

/-- A Cluster whose managedExternalEtcdInitialized latch is already true
(C7 witness). -/
def c7Cluster : Cluster :=
  {name := "c", namespaceCluster := "ns",
   spec := {managedExternalEtcdRef := some c7EtcdRef},
   status := {managedExternalEtcdInitialized := true,
              conditions := [{condType := managedExternalEtcdClusterInitializedCondition,
                              status := ConditionStatus.sTrue}]}}

/-- Environment for the C7 witness run. -/
def c7Env : Env :=
  {get := fun r _ => if r = c7EtcdRef then GetResult.found c7EtcdObj else GetResult.notFound}

/-- Reference used by the C8/C9/C10 witnesses. -/
def cExtRef : ObjectReference :=
  {apiVersion := "infrastructure.cluster.x-k8s.io/v1beta1", kind := "FooCluster",
   name := "foo1"}

/-- A paused referenced object (C8 witness). -/
def c8Obj : Obj :=
  {apiVersion := "infrastructure.cluster.x-k8s.io/v1beta1", kind := "FooCluster",
   name := "foo1", namespaceObj := "ns", annotations := [(pausedAnn, "true")],
   status := {failureReason := "SomeReason"}}

/-- Cluster of the C8 witness. -/
def c8Cluster : Cluster := {name := "c", namespaceCluster := "ns"}

/-- Environment of the C8 witness: the referenced object is found and is
paused. -/
def c8Env : Env := {get := fun _ _ => GetResult.found c8Obj}

/-- Environment of the C9 not-found witness (the default oracle reports
not-found). -/
def c9EnvNotFound : Env := {}

/-- Environment of the C9 fetch-error witness. -/
def c9EnvErr : Env := {get := fun _ _ => GetResult.fetchError}

/-- Cluster of the C9 witness. -/
def c9Cluster : Cluster := {name := "c", namespaceCluster := "ns"}

/-- A referenced object reporting a failure (C10 witness). -/
def c10Obj : Obj :=
  {apiVersion := "infrastructure.cluster.x-k8s.io/v1beta1", kind := "FooCluster",
   name := "foo1", namespaceObj := "ns",
   status := {failureReason := "InvalidImage", failureMessage := "not found"}}

/-- The C10 witness object after controller-owner adoption. -/
def c10ObjOwned : Obj := {c10Obj with ownerReferences := [{name := "c", controller := true}]}

/-- Cluster of the C10 witness. -/
def c10Cluster : Cluster := {name := "c", namespaceCluster := "ns"}

/-- Environment of the C10 witness: the referenced object is found and all
later collaborators succeed. -/
def c10Env : Env := {get := fun _ _ => GetResult.found c10Obj}

/- Helper lemmas. -/

/-- Normal form of the phase computed by reconcilePhase: the five clauses
collapse to a single priority chain read off the input Cluster (deletion
dominates, then failure, then provisioned, then provisioning, then pending,
else the input phase is preserved). -/
theorem reconcilePhase_phase (c : Cluster) :
    (reconcilePhase c).status.phase =
      if c.deletionTimestamp then clusterPhaseDeleting
      else if c.status.failureReason.isSome || c.status.failureMessage.isSome then clusterPhaseFailed
      else if c.status.infrastructureReady && c.spec.controlPlaneEndpoint.isValid then
        clusterPhaseProvisioned
      else if c.spec.infrastructureRef.isSome then clusterPhaseProvisioning
      else if c.status.phase = "" then clusterPhasePending
      else c.status.phase := by
  unfold reconcilePhase
  dsimp only
  split_ifs <;> rfl

/-- reconcilePhase only writes status.phase: the failure fields and the
deletion timestamp are untouched. -/
theorem reconcilePhase_preserves (c : Cluster) :
    (reconcilePhase c).status.failureReason = c.status.failureReason ∧
    (reconcilePhase c).status.failureMessage = c.status.failureMessage ∧
    (reconcilePhase c).deletionTimestamp = c.deletionTimestamp := by
  unfold reconcilePhase
  dsimp only
  split_ifs <;> exact ⟨rfl, rfl, rfl⟩

/-- C1, counterexample. The claim states that at the end of a reconcile
`status.phase = Failed` iff a failure field is set (absent deletion), but
reconcilePhase preserves a stale `Failed` phase: on a Cluster whose phase
is already `Failed` with both failure fields clear, no infrastructure
reference and no deletion timestamp, the labeler leaves the phase at
`Failed` even though neither failure field is set. -/
theorem C1_counterexample :
    (reconcilePhase c1CexCluster).status.phase = clusterPhaseFailed ∧
    (reconcilePhase c1CexCluster).status.failureReason = none ∧
    (reconcilePhase c1CexCluster).status.failureMessage = none ∧
    (reconcilePhase c1CexCluster).deletionTimestamp = false := by
  decide

/-- C1, amended. For every Cluster whose incoming phase is not already
`Failed`, the phase labeler establishes `status.phase = Failed` iff
`status.failureReason` or `status.failureMessage` is set at the end,
except that when `metadata.deletionTimestamp` is set the phase is
`Deleting` instead. -/
theorem C1_amended (c : Cluster) (hphase : c.status.phase ≠ clusterPhaseFailed) :
    (c.deletionTimestamp = true → (reconcilePhase c).status.phase = clusterPhaseDeleting) ∧
    (c.deletionTimestamp = false →
      ((reconcilePhase c).status.phase = clusterPhaseFailed ↔
        ((reconcilePhase c).status.failureReason.isSome ∨
          (reconcilePhase c).status.failureMessage.isSome))) := by
  obtain ⟨hr, hm, -⟩ := reconcilePhase_preserves c
  rw [reconcilePhase_phase, hr, hm]
  constructor
  · intro hd
    simp [hd]
  · intro hd
    simp only [hd, if_false, Bool.false_eq_true]
    cases hor : (c.status.failureReason.isSome || c.status.failureMessage.isSome) with
    | true =>
      simp only [hor, if_true]
      constructor
      · intro _
        exact Bool.or_eq_true _ _ ▸ hor
      · intro _
        trivial
    | false =>
      simp only [hor, Bool.false_eq_true, if_false]
      constructor
      · intro h
        split_ifs at h
        · exact absurd h (by decide)
        · exact absurd h (by decide)
        · exact absurd h (by decide)
        · exact absurd (h : c.status.phase = clusterPhaseFailed) hphase
      · intro h
        have : (c.status.failureReason.isSome || c.status.failureMessage.isSome) = true := by
          rcases h with h | h <;> simp [h]
        rw [this] at hor
        exact absurd hor (by decide)

/-- C1, witness for the amended theorem: on a Cluster with a failure
reason set, no deletion timestamp and a non-Failed incoming phase, the
labeler ends at phase `Failed`. -/
theorem C1_amended_witness :
    (reconcilePhase c1WCluster).status.phase = clusterPhaseFailed :=
  ((C1_amended c1WCluster (by decide)).2 (by decide)).mpr (Or.inl (by decide))

/-- C2. The five clauses run in order with unconditional writes, so a
Cluster with both failure fields set AND a deletion timestamp set lands in
`Deleting` (the last clause overrides the `Failed` written by the fourth
clause). -/
theorem C2_deleted_failed_lands_deleting (c : Cluster)
    (hr : c.status.failureReason.isSome) (hm : c.status.failureMessage.isSome)
    (hd : c.deletionTimestamp = true) :
    (reconcilePhase c).status.phase = clusterPhaseDeleting ∧
    (reconcilePhase c).status.phase ≠ clusterPhaseFailed := by
  rw [reconcilePhase_phase]
  simp only [hd, if_true]
  exact ⟨trivial, by decide⟩

/-- C2, witness: a concrete deleted Cluster with both failure fields set
ends in phase `Deleting`. -/
theorem C2_witness : (reconcilePhase c2WCluster).status.phase = clusterPhaseDeleting :=
  (C2_deleted_failed_lands_deleting c2WCluster (by decide) (by decide) (by decide)).1

/-- C5, counterexample. The claim says that with `spec.infrastructureRef`
unset, a reconcile establishes `status.infrastructureReady = false`
regardless of the input; but reconcileInfrastructure (lines 142-144)
returns immediately without touching the Cluster, so a stale `true`
survives. -/
theorem C5_counterexample :
    c5Cluster.spec.infrastructureRef = none ∧
    c5Cluster.status.infrastructureReady = true ∧
    (clusterOutOf (reconcileInfrastructure {} c5Cluster)).map
      (fun c => c.status.infrastructureReady) = some true := by
  decide

/-- C5, amended. With `spec.infrastructureRef` unset the infrastructure
sub-reconciler returns immediately with the Cluster unchanged (no error,
no effects): `status.infrastructureReady` keeps its input value instead of
being forced to false. -/
theorem C5_amended (env : Env) (c : Cluster) (h : c.spec.infrastructureRef = none) :
    reconcileInfrastructure env c = Except.ok (c, {}, []) := by
  unfold reconcileInfrastructure
  rw [h]

/-- C5, witness for the amended theorem at a concrete Cluster with a stale
`infrastructureReady = true`. -/
theorem C5_amended_witness :
    reconcileInfrastructure {} c5Cluster = Except.ok (c5Cluster, {}, []) :=
  C5_amended {} c5Cluster rfl

/-- C3. The claim says the resume-control-plane step runs only when
`spec.controlPlaneRef` is set and that with it unset the etcd
sub-reconciler completes without error; but reconcileEtcdCluster (line
326) passes `cluster.Spec.ControlPlaneRef` to `external.Get` without a nil
check, so with a ready etcd object and no control-plane reference the run
dereferences a nil pointer instead of completing. -/
theorem C3_missing_nil_guard :
    c3Cluster.spec.controlPlaneRef = none ∧
    reconcileEtcdCluster c3Env c3Cluster = Except.error RErr.nilDeref :=
  ⟨rfl, rfl⟩

/-- C8. When the fetched object (or the Cluster) carries the paused
marker, reconcileExternal returns `{paused: true}` with the Cluster
unchanged and an empty effect trace: the object is not patched (no owner
reference or cluster-name label write is sent) and the Cluster's failure
fields are untouched. -/
theorem C8_pause_gate (env : Env) (cluster : Cluster) (ref ref2 : ObjectReference) (obj : Obj)
    (hc : env.updateReferenceAPIContract ref = some ref2)
    (hg : env.get ref2 cluster.namespaceCluster = GetResult.found obj)
    (hp : isPaused cluster obj = true) :
    reconcileExternal env cluster ref = Except.ok (cluster, {paused := true}, []) := by
  simp [reconcileExternal, hc, hg, hp]

/-- C8, witness: a concrete paused referenced object short-circuits the
external reconciler with no mutations. -/
theorem C8_witness :
    reconcileExternal c8Env c8Cluster cExtRef = Except.ok (c8Cluster, {paused := true}, []) :=
  C8_pause_gate c8Env c8Cluster cExtRef cExtRef c8Obj rfl rfl (by decide)

/-- C9. A not-found fetch of the referenced object yields
`{requeueAfter: 30}` under `Except.ok` (no error is surfaced), while any
other fetch failure is returned on the error channel. -/
theorem C9_fetch_miss (env : Env) (cluster : Cluster) (ref ref2 : ObjectReference)
    (hc : env.updateReferenceAPIContract ref = some ref2) :
    (env.get ref2 cluster.namespaceCluster = GetResult.notFound →
      reconcileExternal env cluster ref = Except.ok (cluster, {requeueAfter := 30}, [])) ∧
    (env.get ref2 cluster.namespaceCluster = GetResult.fetchError →
      reconcileExternal env cluster ref = Except.error RErr.getError) := by
  constructor <;> intro hg <;> simp [reconcileExternal, hc, hg]

/-- C9, witness: concrete not-found and fetch-error runs. -/
theorem C9_witness :
    reconcileExternal c9EnvNotFound c9Cluster cExtRef =
      Except.ok (c9Cluster, {requeueAfter := 30}, []) ∧
    reconcileExternal c9EnvErr c9Cluster cExtRef = Except.error RErr.getError :=
  ⟨(C9_fetch_miss c9EnvNotFound c9Cluster cExtRef cExtRef rfl).1 rfl,
   (C9_fetch_miss c9EnvErr c9Cluster cExtRef cExtRef rfl).2 rfl⟩

/-- Adoption only rewrites the owner references: every other field of the
object survives setControllerReference. -/
theorem setControllerReference_fields (cluster : Cluster) (obj objOwned : Obj)
    (h : setControllerReference cluster obj = some objOwned) :
    objOwned.status = obj.status ∧ objOwned.kind = obj.kind ∧ objOwned.name = obj.name ∧
    objOwned.apiVersion = obj.apiVersion := by
  unfold setControllerReference at h
  split at h
  · cases h
  · injection h with h
    subst h
    exact ⟨rfl, rfl, rfl, rfl⟩

/-- An empty reported failureReason leaves the Cluster's failureReason
unchanged. -/
theorem applyFailuresFrom_reason_empty (c : Cluster) (o : Obj)
    (h : o.status.failureReason = "") :
    (applyFailuresFrom c o).status.failureReason = c.status.failureReason := by
  unfold applyFailuresFrom
  by_cases hm : o.status.failureMessage = "" <;> simp [h, hm]

/-- A non-empty reported failureReason is copied verbatim. -/
theorem applyFailuresFrom_reason_nonempty (c : Cluster) (o : Obj)
    (h : ¬ o.status.failureReason = "") :
    (applyFailuresFrom c o).status.failureReason = some o.status.failureReason := by
  unfold applyFailuresFrom
  by_cases hm : o.status.failureMessage = "" <;> simp [h, hm]

/-- An empty reported failureMessage leaves the Cluster's failureMessage
unchanged. -/
theorem applyFailuresFrom_message_empty (c : Cluster) (o : Obj)
    (h : o.status.failureMessage = "") :
    (applyFailuresFrom c o).status.failureMessage = c.status.failureMessage := by
  unfold applyFailuresFrom
  by_cases hr : o.status.failureReason = "" <;> simp [h, hr]

/-- A non-empty reported failureMessage is copied behind the citation. -/
theorem applyFailuresFrom_message_nonempty (c : Cluster) (o : Obj)
    (h : ¬ o.status.failureMessage = "") :
    (applyFailuresFrom c o).status.failureMessage =
      some (failureCitation o ++ o.status.failureMessage) := by
  unfold applyFailuresFrom
  by_cases hr : o.status.failureReason = "" <;> simp [h, hr]

/-- C10. On the successful path of reconcileExternal, a non-empty
`status.failureReason` of the referenced object is copied verbatim to the
Cluster, a non-empty `status.failureMessage` is copied prefixed with the
citation naming the object's GroupVersionKind and name, and empty reported
fields leave the Cluster's existing failure fields untouched. -/
theorem C10_failure_surfacing (env : Env) (cluster : Cluster) (ref ref2 : ObjectReference)
    (obj objOwned : Obj)
    (hc : env.updateReferenceAPIContract ref = some ref2)
    (hg : env.get ref2 cluster.namespaceCluster = GetResult.found obj)
    (hp : isPaused cluster obj = false)
    (hh : env.newHelperOk = true)
    (hs : setControllerReference cluster obj = some objOwned)
    (hpatch : env.patchOk (withClusterLabel cluster objOwned) = true)
    (hw : env.watchOk = true) :
    reconcileExternal env cluster ref =
      Except.ok (applyFailuresFrom cluster (withClusterLabel cluster objOwned),
        {result := some (withClusterLabel cluster objOwned)},
        [Effect.patch (withClusterLabel cluster objOwned)]) ∧
    (¬ obj.status.failureReason = "" →
      (applyFailuresFrom cluster (withClusterLabel cluster objOwned)).status.failureReason =
        some obj.status.failureReason) ∧
    (obj.status.failureReason = "" →
      (applyFailuresFrom cluster (withClusterLabel cluster objOwned)).status.failureReason =
        cluster.status.failureReason) ∧
    (¬ obj.status.failureMessage = "" →
      (applyFailuresFrom cluster (withClusterLabel cluster objOwned)).status.failureMessage =
        some (failureCitation obj ++ obj.status.failureMessage)) ∧
    (obj.status.failureMessage = "" →
      (applyFailuresFrom cluster (withClusterLabel cluster objOwned)).status.failureMessage =
        cluster.status.failureMessage) := by
  obtain ⟨hst, hk, hn, hv⟩ := setControllerReference_fields cluster obj objOwned hs
  have hFst : (withClusterLabel cluster objOwned).status = obj.status := by
    rw [withClusterLabel]
    exact hst
  have hcit : failureCitation (withClusterLabel cluster objOwned) = failureCitation obj := by
    rw [failureCitation, failureCitation, withClusterLabel]
    dsimp only
    rw [hk, hn, hv]
  refine ⟨?_, ?_, ?_, ?_, ?_⟩
  · simp [reconcileExternal, hc, hg, hp, hh, hs, hpatch, hw]
  · intro hne
    rw [applyFailuresFrom_reason_nonempty cluster _ (by rw [hFst]; exact hne), hFst]
  · intro he
    exact applyFailuresFrom_reason_empty cluster _ (by rw [hFst]; exact he)
  · intro hne
    rw [applyFailuresFrom_message_nonempty cluster _ (by rw [hFst]; exact hne), hFst, hcit]
  · intro he
    exact applyFailuresFrom_message_empty cluster _ (by rw [hFst]; exact he)

/-- C10, witness: a referenced object reporting
`failureReason = "InvalidImage"`, `failureMessage = "not found"` puts
`some "InvalidImage"` and the cited message on a concrete Cluster. -/
theorem C10_witness :
    (applyFailuresFrom c10Cluster (withClusterLabel c10Cluster c10ObjOwned)).status.failureReason =
      some "InvalidImage" ∧
    (applyFailuresFrom c10Cluster (withClusterLabel c10Cluster c10ObjOwned)).status.failureMessage =
      some (failureCitation c10Obj ++ "not found") :=
  ⟨((C10_failure_surfacing c10Env c10Cluster cExtRef cExtRef c10Obj c10ObjOwned
      rfl rfl (by decide) rfl (by decide) rfl rfl).2.1 (by decide)),
   ((C10_failure_surfacing c10Env c10Cluster cExtRef cExtRef c10Obj c10ObjOwned
      rfl rfl (by decide) rfl (by decide) rfl rfl).2.2.2.1 (by decide))⟩

/-- Every effect queued before the generic control-plane reconcile survives
into the effect trace of a successful reconcileControlPlaneMain run. -/
theorem reconcileControlPlaneMain_effects (env : Env) (c : Cluster) (cpRef : ObjectReference)
    (effs0 : List Effect) (c' : Cluster) (r : CtrlResult) (effs : List Effect)
    (h : reconcileControlPlaneMain env c cpRef effs0 = Except.ok (c', r, effs)) :
    ∀ e ∈ effs0, e ∈ effs := by
  intro e he
  unfold reconcileControlPlaneMain at h
  cases hext : reconcileExternal env c cpRef with
  | error err =>
    rw [hext] at h
    cases h
  | ok t =>
    rw [hext] at h
    obtain ⟨c₁, out, effs₁⟩ := t
    dsimp only at h
    repeat' split at h
    all_goals cases h
    all_goals exact List.mem_append_left _ he

/-- C4, amended. When managedExternalEtcdRef is set and the etcd object is
not ready, the control-plane sub-reconciler pauses the control plane by a
full update whose object carries ONLY the `cluster.x-k8s.io/paused = true`
annotation: SetAnnotations replaces the whole annotation map, so
annotations present before the update are NOT preserved. -/
theorem C4_pause_replaces_annotations (env : Env) (cluster : Cluster)
    (etcdRef cpRef : ObjectReference) (externalEtcd controlPlane : Obj)
    (c' : Cluster) (r : CtrlResult) (effs : List Effect)
    (hcp : cluster.spec.controlPlaneRef = some cpRef)
    (hetcd : cluster.spec.managedExternalEtcdRef = some etcdRef)
    (hge : env.get etcdRef cluster.namespaceCluster = GetResult.found externalEtcd)
    (hready : externalEtcd.status.ready = false)
    (hgc : env.get cpRef cluster.namespaceCluster = GetResult.found controlPlane)
    (hrun : reconcileControlPlane env cluster = Except.ok (c', r, effs)) :
    Effect.update {controlPlane with annotations := [(pausedAnn, "true")]} ∈ effs ∧
    (∀ k v, (k, v) ∈ ({controlPlane with annotations := [(pausedAnn, "true")]} : Obj).annotations →
      k = pausedAnn ∧ v = "true") := by
  constructor
  · unfold reconcileControlPlane at hrun
    simp only [hcp] at hrun
    simp only [hetcd] at hrun
    simp only [hge] at hrun
    simp [hready] at hrun
    simp only [hgc] at hrun
    cases hupd : env.update {controlPlane with annotations := [(pausedAnn, "true")]} with
    | false =>
      simp [hupd] at hrun
    | true =>
      simp [hupd] at hrun
      exact reconcileControlPlaneMain_effects env cluster cpRef _ c' r effs hrun _ (by simp)
  · intro k v hkv
    simp only [List.mem_singleton] at hkv
    cases hkv
    exact ⟨rfl, rfl⟩

/-- C4, counterexample. The claim asserts that annotations present on the
control-plane object before the pause update remain present afterwards; on
a control-plane object carrying `foo = bar`, the object sent through the
update carries only the paused annotation — `foo` is gone. -/
theorem C4_counterexample :
    lookupStr c4Cp.annotations "foo" = some "bar" ∧
    updatesOf (reconcileControlPlane c4Env c4Cluster) =
      [{c4Cp with annotations := [(pausedAnn, "true")]}] ∧
    lookupStr ({c4Cp with annotations := [(pausedAnn, "true")]} : Obj).annotations "foo" = none :=
  ⟨rfl, rfl, rfl⟩

/-- C4, witness for the amended theorem: in the concrete not-ready-etcd
run, the update effect with the replaced annotation map appears in the
effect trace. -/
theorem C4_witness :
    Effect.update {c4Cp with annotations := [(pausedAnn, "true")]} ∈
      effectsOutOf (reconcileControlPlane c4Env c4Cluster) := by
  cases hrun : reconcileControlPlane c4Env c4Cluster with
  | error e =>
    have hsome : (reconcileControlPlane c4Env c4Cluster).toOption.isSome = true := by decide
    rw [hrun] at hsome
    simp [Except.toOption] at hsome
  | ok t =>
    obtain ⟨c', r, effs⟩ := t
    have h := C4_pause_replaces_annotations c4Env c4Cluster c4EtcdRef c4CpRef c4Etcd c4Cp
      c' r effs rfl rfl (by decide) rfl (by decide) hrun
    simpa [effectsOutOf, hrun] using h.1

/-- Upserting a condition of one type does not disturb the lookup of any
other type. -/
theorem getCond_setCond_ne (conds : List Condition) (c : Condition) (t : String)
    (h : ¬ c.condType = t) : getCond (setCond conds c) t = getCond conds t := by
  induction conds with
  | nil =>
    show getCond [c] t = getCond [] t
    unfold getCond
    rw [if_neg h]
    rfl
  | cons x rest ih =>
    unfold setCond
    by_cases hx : x.condType = c.condType
    · rw [if_pos hx]
      have hxt : ¬ x.condType = t := by rw [hx]; exact h
      unfold getCond
      rw [if_neg h, if_neg hxt]
    · rw [if_neg hx]
      unfold getCond
      by_cases hxt : x.condType = t
      · rw [if_pos hxt, if_pos hxt]
      · rw [if_neg hxt, if_neg hxt]
        exact ih

/-- Mirroring a condition of one type does not disturb the lookup of any
other condition type on the Cluster. -/
theorem getCond_setMirror_ne (c : Cluster) (t : String) (obj : Obj) (f : Bool)
    (r t' : String) (h : ¬ t = t') :
    getCond (setMirrorCondition c t obj f r).status.conditions t' =
      getCond c.status.conditions t' := by
  unfold setMirrorCondition
  dsimp only
  apply getCond_setCond_ne
  split
  · simpa using h
  · split <;> simpa using h

/-- The failure-surfacing step touches only the failure fields. -/
theorem applyFailuresFrom_preserves (c : Cluster) (o : Obj) :
    (applyFailuresFrom c o).status.managedExternalEtcdInitialized =
      c.status.managedExternalEtcdInitialized ∧
    (applyFailuresFrom c o).status.conditions = c.status.conditions ∧
    (applyFailuresFrom c o).spec = c.spec := by
  unfold applyFailuresFrom
  by_cases h1 : o.status.failureReason = "" <;> by_cases h2 : o.status.failureMessage = "" <;>
    simp [h1, h2]

/-- On success, the generic external reconciler changes at most the
Cluster's failure fields: the managedExternalEtcdInitialized bit, the
condition list and the spec are preserved. -/
theorem reconcileExternal_preserves (env : Env) (c : Cluster) (ref : ObjectReference)
    (c' : Cluster) (out : ReconcileOutput) (effs : List Effect)
    (h : reconcileExternal env c ref = Except.ok (c', out, effs)) :
    c'.status.managedExternalEtcdInitialized = c.status.managedExternalEtcdInitialized ∧
    c'.status.conditions = c.status.conditions ∧
    c'.spec = c.spec := by
  unfold reconcileExternal at h
  cases hc : env.updateReferenceAPIContract ref with
  | none =>
    rw [hc] at h
    cases h
  | some ref2 =>
    rw [hc] at h
    dsimp only at h
    cases hg : env.get ref2 c.namespaceCluster with
    | notFound =>
      rw [hg] at h
      cases h
      exact ⟨rfl, rfl, rfl⟩
    | fetchError =>
      rw [hg] at h
      cases h
    | found obj =>
      rw [hg] at h
      dsimp only at h
      cases hp : isPaused c obj with
      | true =>
        simp [hp] at h
        obtain ⟨rfl, -, -⟩ := h
        exact ⟨rfl, rfl, rfl⟩
      | false =>
        simp only [hp] at h
        simp at h
        cases hh : env.newHelperOk with
        | false =>
          simp [hh] at h
        | true =>
          simp [hh] at h
          cases hs : setControllerReference c obj with
          | none =>
            rw [hs] at h
            cases h
          | some objOwned =>
            rw [hs] at h
            dsimp only at h
            cases hpatch : env.patchOk (withClusterLabel c objOwned) with
            | false =>
              simp [hpatch] at h
            | true =>
              simp [hpatch] at h
              cases hw : env.watchOk with
              | false =>
                simp [hw] at h
              | true =>
                simp [hw] at h
                obtain ⟨rfl, -, -⟩ := h
                exact applyFailuresFrom_preserves c _

/-- Once the managedExternalEtcdInitialized bit is true on entry, the etcd
tail (mirror + latch) keeps it true. -/
theorem etcdTailCluster_init_mono (c : Cluster) (obj : Obj) (ready : Bool)
    (h : c.status.managedExternalEtcdInitialized = true) :
    (etcdTailCluster c obj ready).status.managedExternalEtcdInitialized = true := by
  unfold etcdTailCluster
  dsimp only
  split
  · split
    · rfl
    · exact h
  · exact h

/-- While the ManagedEtcdInitialized condition is already True, the etcd
tail leaves both the initialized bit and that condition entry untouched
(the latch is not re-evaluated). -/
theorem etcdTailCluster_gated (c : Cluster) (obj : Obj) (ready : Bool)
    (h : isTrueCond c managedExternalEtcdClusterInitializedCondition = true) :
    (etcdTailCluster c obj ready).status.managedExternalEtcdInitialized =
      c.status.managedExternalEtcdInitialized ∧
    getCond (etcdTailCluster c obj ready).status.conditions
        managedExternalEtcdClusterInitializedCondition =
      getCond c.status.conditions managedExternalEtcdClusterInitializedCondition := by
  have hmir : isTrueCond
      (setMirrorCondition c managedExternalEtcdClusterReadyCondition obj ready
        waitingForEtcdClusterInitializedReason)
      managedExternalEtcdClusterInitializedCondition =
      isTrueCond c managedExternalEtcdClusterInitializedCondition := by
    unfold isTrueCond
    rw [getCond_setMirror_ne c managedExternalEtcdClusterReadyCondition obj ready
      waitingForEtcdClusterInitializedReason managedExternalEtcdClusterInitializedCondition
      (by decide)]
  unfold etcdTailCluster
  dsimp only
  rw [hmir, h]
  simp only [Bool.true_eq_false, if_false]
  refine ⟨rfl, ?_⟩
  exact getCond_setMirror_ne c managedExternalEtcdClusterReadyCondition obj ready
    waitingForEtcdClusterInitializedReason managedExternalEtcdClusterInitializedCondition
    (by decide)

/-- C7. Once `status.managedExternalEtcdInitialized` is true it never
becomes false across a successful etcd sub-reconcile, and while the
ManagedEtcdInitialized condition is already True the latch is not
re-evaluated: the bit and the condition entry come out unchanged. -/
theorem C7_initialized_latch (env : Env) (cluster c' : Cluster) (r : CtrlResult)
    (effs : List Effect)
    (h : reconcileEtcdCluster env cluster = Except.ok (c', r, effs)) :
    (cluster.status.managedExternalEtcdInitialized = true →
      c'.status.managedExternalEtcdInitialized = true) ∧
    (isTrueCond cluster managedExternalEtcdClusterInitializedCondition = true →
      c'.status.managedExternalEtcdInitialized =
        cluster.status.managedExternalEtcdInitialized ∧
      getCond c'.status.conditions managedExternalEtcdClusterInitializedCondition =
        getCond cluster.status.conditions managedExternalEtcdClusterInitializedCondition) := by
  unfold reconcileEtcdCluster at h
  cases href : cluster.spec.managedExternalEtcdRef with
  | none =>
    rw [href] at h
    cases h
    exact ⟨fun hin => hin, fun _ => ⟨rfl, rfl⟩⟩
  | some etcdRef =>
    rw [href] at h
    dsimp only at h
    cases hext : reconcileExternal env cluster etcdRef with
    | error e =>
      rw [hext] at h
      dsimp only at h
      cases h
    | ok t =>
      obtain ⟨c₁, out, effs₁⟩ := t
      obtain ⟨hinit1, hconds1, hspec1⟩ :=
        reconcileExternal_preserves env cluster etcdRef c₁ out effs₁ hext
      rw [hext] at h
      dsimp only at h
      have hc₁ : (cluster.status.managedExternalEtcdInitialized = true →
            c₁.status.managedExternalEtcdInitialized = true) ∧
          (isTrueCond cluster managedExternalEtcdClusterInitializedCondition = true →
            c₁.status.managedExternalEtcdInitialized =
              cluster.status.managedExternalEtcdInitialized ∧
            getCond c₁.status.conditions managedExternalEtcdClusterInitializedCondition =
              getCond cluster.status.conditions managedExternalEtcdClusterInitializedCondition) := by
        rw [hinit1, hconds1]
        exact ⟨fun hin => hin, fun _ => ⟨rfl, rfl⟩⟩
      split at h
      · cases h
        exact hc₁
      · split at h
        · cases h
          exact hc₁
        · cases hres : out.result with
          | none =>
            rw [hres] at h
            cases h
          | some cfg =>
            rw [hres] at h
            dsimp only at h
            split at h
            · cases h
              exact hc₁
            · have hc₂init :
                  ({c₁ with status :=
                    {c₁.status with managedExternalEtcdReady := cfg.status.ready}} :
                      Cluster).status.managedExternalEtcdInitialized =
                    cluster.status.managedExternalEtcdInitialized := hinit1
              have hc₂conds :
                  ({c₁ with status :=
                    {c₁.status with managedExternalEtcdReady := cfg.status.ready}} :
                      Cluster).status.conditions = cluster.status.conditions := hconds1
              have hc₂ : (cluster.status.managedExternalEtcdInitialized = true →
                    ({c₁ with status :=
                      {c₁.status with managedExternalEtcdReady := cfg.status.ready}} :
                        Cluster).status.managedExternalEtcdInitialized = true) ∧
                  (isTrueCond cluster managedExternalEtcdClusterInitializedCondition = true →
                    ({c₁ with status :=
                      {c₁.status with managedExternalEtcdReady := cfg.status.ready}} :
                        Cluster).status.managedExternalEtcdInitialized =
                      cluster.status.managedExternalEtcdInitialized ∧
                    getCond ({c₁ with status :=
                      {c₁.status with managedExternalEtcdReady := cfg.status.ready}} :
                        Cluster).status.conditions
                        managedExternalEtcdClusterInitializedCondition =
                      getCond cluster.status.conditions
                        managedExternalEtcdClusterInitializedCondition) := by
                rw [hc₂init, hc₂conds]
                exact ⟨fun hin => hin, fun _ => ⟨rfl, rfl⟩⟩
              have htail : (cluster.status.managedExternalEtcdInitialized = true →
                    (etcdTailCluster
                      {c₁ with status :=
                        {c₁.status with managedExternalEtcdReady := cfg.status.ready}}
                      cfg cfg.status.ready).status.managedExternalEtcdInitialized = true) ∧
                  (isTrueCond cluster managedExternalEtcdClusterInitializedCondition = true →
                    (etcdTailCluster
                      {c₁ with status :=
                        {c₁.status with managedExternalEtcdReady := cfg.status.ready}}
                      cfg cfg.status.ready).status.managedExternalEtcdInitialized =
                      cluster.status.managedExternalEtcdInitialized ∧
                    getCond (etcdTailCluster
                      {c₁ with status :=
                        {c₁.status with managedExternalEtcdReady := cfg.status.ready}}
                      cfg cfg.status.ready).status.conditions
                        managedExternalEtcdClusterInitializedCondition =
                      getCond cluster.status.conditions
                        managedExternalEtcdClusterInitializedCondition) := by
                constructor
                · intro hin
                  apply etcdTailCluster_init_mono
                  rw [hc₂init]
                  exact hin
                · intro htr
                  have htr₂ : isTrueCond
                      {c₁ with status :=
                        {c₁.status with managedExternalEtcdReady := cfg.status.ready}}
                      managedExternalEtcdClusterInitializedCondition = true := by
                    unfold isTrueCond at htr ⊢
                    rw [hc₂conds]
                    exact htr
                  obtain ⟨hA, hB⟩ := etcdTailCluster_gated
                    {c₁ with status :=
                      {c₁.status with managedExternalEtcdReady := cfg.status.ready}}
                    cfg cfg.status.ready htr₂
                  refine ⟨hA.trans hc₂init, hB.trans ?_⟩
                  rw [hc₂conds]
              repeat' split at h
              all_goals cases h
              all_goals first
                | exact hc₂
                | exact htail

/-- C7, witness: a concrete Cluster entering the etcd sub-reconciler with
the latch already true leaves with the bit still true. -/
theorem C7_witness :
    (clusterOutOf (reconcileEtcdCluster c7Env c7Cluster)).map
      (fun c => c.status.managedExternalEtcdInitialized) = some true := by
  cases hrun : reconcileEtcdCluster c7Env c7Cluster with
  | error e =>
    have hsome : (reconcileEtcdCluster c7Env c7Cluster).toOption.isSome = true := by decide
    rw [hrun] at hsome
    simp [Except.toOption] at hsome
  | ok t =>
    obtain ⟨c', r, effs⟩ := t
    have hmono := (C7_initialized_latch c7Env c7Cluster c' r effs hrun).1 (by decide)
    simp [clusterOutOf, hrun, Except.toOption, hmono]

/-- Membership in a concatenated image. -/
theorem mem_concatMapList {α β : Type} (f : α → List β) (l : List α) (b : β) :
    b ∈ concatMapList f l ↔ ∃ a ∈ l, b ∈ f a := by
  induction l with
  | nil => simp [concatMapList]
  | cons a as ih =>
    simp only [concatMapList, List.mem_append, ih, List.mem_cons]
    constructor
    · rintro (hb | ⟨x, hx, hbx⟩)
      · exact ⟨a, Or.inl rfl, hb⟩
      · exact ⟨x, Or.inr hx, hbx⟩
    · rintro ⟨x, rfl | hx, hbx⟩
      · exact Or.inl hbx
      · exact Or.inr ⟨x, hx, hbx⟩

/-- Characterization of the per-GVK listing: an object is returned iff it
is in the store with the requested apiVersion and kind, matches the
selector, and lives in the requested namespace when one is given. -/
theorem mem_listObjByGVK_iff (store : List Obj) (gvs kind : String)
    (labels : List (String × String)) (ns : Option String) (o : Obj) :
    o ∈ listObjByGVK store gvs kind labels ns ↔
      o ∈ store ∧ o.apiVersion = gvs ∧ o.kind = kind ∧
        matchesLabels labels o.labels = true ∧ ∀ n, ns = some n → o.namespaceObj = n := by
  cases ns with
  | none =>
    simp [listObjByGVK, List.mem_filter, Bool.and_eq_true, decide_eq_true_eq, and_assoc]
  | some n =>
    simp [listObjByGVK, List.mem_filter, Bool.and_eq_true, decide_eq_true_eq, and_assoc]

/-- Every object returned by the inner enumerator loop carries the loop's
group-version as its apiVersion, and its GVK string was checked against
the exclusion set. -/
theorem listResourcesForKinds_excl (store : List Obj) (excl : List String)
    (labels : List (String × String)) (namespaces : List String) (groupVersion : String) :
    ∀ (kinds : List APIResource) (res : List Obj),
      listResourcesForKinds store excl labels namespaces groupVersion kinds = Except.ok res →
      ∀ o ∈ res, o.apiVersion = groupVersion ∧
        ∃ gv, parseGroupVersion groupVersion = some gv ∧
          ¬ gvkString gv.group gv.version o.kind ∈ excl := by
  intro kinds
  induction kinds with
  | nil =>
    intro res h o ho
    cases h
    simp at ho
  | cons rk rest ih =>
    intro res h o ho
    unfold listResourcesForKinds at h
    by_cases hskip : skipDuplicateResource groupVersion rk = true
    · rw [if_pos hskip] at h
      exact ih res h o ho
    · rw [if_neg hskip] at h
      cases hparse : parseGroupVersion groupVersion with
      | none =>
        rw [hparse] at h
        cases h
      | some gv =>
        rw [hparse] at h
        dsimp only at h
        by_cases hexcl : gvkString gv.group gv.version rk.kind ∈ excl
        · rw [if_pos hexcl] at h
          obtain ⟨hav', gv', hp', hne'⟩ := ih res h o ho
          rw [hparse] at hp'
          exact ⟨hav', gv', hp', hne'⟩
        · rw [if_neg hexcl] at h
          cases hrest : listResourcesForKinds store excl labels namespaces groupVersion rest with
          | error e =>
            rw [hrest] at h
            cases h
          | ok ys =>
            rw [hrest] at h
            cases h
            rcases List.mem_append.mp ho with hin | hin
            · have hfields : o.apiVersion = groupVersion ∧ o.kind = rk.kind := by
                by_cases hns : rk.namespaced = true
                · rw [if_pos hns] at hin
                  obtain ⟨n, hn, hobj⟩ := (mem_concatMapList _ _ _).mp hin
                  obtain ⟨-, hav, hk, -, -⟩ :=
                    (mem_listObjByGVK_iff store groupVersion rk.kind labels (some n) o).mp hobj
                  exact ⟨hav, hk⟩
                · rw [if_neg hns] at hin
                  obtain ⟨-, hav, hk, -, -⟩ :=
                    (mem_listObjByGVK_iff store groupVersion rk.kind labels none o).mp hin
                  exact ⟨hav, hk⟩
              refine ⟨hfields.1, gv, rfl, ?_⟩
              rw [hfields.2]
              exact hexcl
            · obtain ⟨hav', gv', hp', hne'⟩ := ih ys hrest o hin
              rw [hparse] at hp'
              exact ⟨hav', gv', hp', hne'⟩

/-- Every object returned by the enumerator has a parseable apiVersion
whose GVK string avoids the exclusion set. -/
theorem listResourcesForGroups_excl (store : List Obj) (excl : List String)
    (labels : List (String × String)) (namespaces : List String) :
    ∀ (groups : List APIResourceList) (res : List Obj),
      listResourcesForGroups store excl labels namespaces groups = Except.ok res →
      ∀ o ∈ res, ∃ gv, parseGroupVersion o.apiVersion = some gv ∧
        ¬ gvkString gv.group gv.version o.kind ∈ excl := by
  intro groups
  induction groups with
  | nil =>
    intro res h o ho
    cases h
    simp at ho
  | cons g rest ih =>
    intro res h o ho
    unfold listResourcesForGroups at h
    cases hk : listResourcesForKinds store excl labels namespaces g.groupVersion g.apiResources with
    | error e =>
      rw [hk] at h
      cases h
    | ok xs =>
      rw [hk] at h
      dsimp only at h
      cases hr : listResourcesForGroups store excl labels namespaces rest with
      | error e =>
        rw [hr] at h
        cases h
      | ok ys =>
        rw [hr] at h
        cases h
        rcases List.mem_append.mp ho with hin | hin
        · obtain ⟨hav, gv, hp, hne⟩ :=
            listResourcesForKinds_excl store excl labels namespaces g.groupVersion
              g.apiResources xs hk o hin
          refine ⟨gv, ?_, hne⟩
          rw [hav]
          exact hp
        · exact ih ys hr o hin

/-- A store object of a surviving (listed, non-skipped, non-excluded)
resource kind is returned by the inner enumerator loop. -/
theorem listResourcesForKinds_mem (store : List Obj) (excl : List String)
    (labels : List (String × String)) (namespaces : List String) (groupVersion : String)
    (rk : APIResource) (gv : GroupVersion) (o : Obj)
    (hskip : skipDuplicateResource groupVersion rk = false)
    (hparse : parseGroupVersion groupVersion = some gv)
    (hexcl : ¬ gvkString gv.group gv.version rk.kind ∈ excl)
    (ho : o ∈ store) (hav : o.apiVersion = groupVersion) (hk : o.kind = rk.kind)
    (hlab : matchesLabels labels o.labels = true)
    (hns : rk.namespaced = true → o.namespaceObj ∈ namespaces) :
    ∀ (kinds : List APIResource), rk ∈ kinds →
      ∀ res, listResourcesForKinds store excl labels namespaces groupVersion kinds =
          Except.ok res → o ∈ res := by
  intro kinds
  induction kinds with
  | nil =>
    intro hmem
    exact absurd hmem (List.not_mem_nil rk)
  | cons rk' rest ih =>
    intro hmem res h
    unfold listResourcesForKinds at h
    rcases List.mem_cons.mp hmem with heq | hmemrest
    · subst heq
      have hskip' : ¬ (skipDuplicateResource groupVersion rk = true) := by simp [hskip]
      rw [if_neg hskip', hparse] at h
      dsimp only at h
      rw [if_neg hexcl] at h
      cases hrest : listResourcesForKinds store excl labels namespaces groupVersion rest with
      | error e =>
        rw [hrest] at h
        cases h
      | ok ys =>
        rw [hrest] at h
        cases h
        apply List.mem_append_left
        by_cases hnsb : rk.namespaced = true
        · rw [if_pos hnsb]
          refine (mem_concatMapList _ _ _).mpr ⟨o.namespaceObj, hns hnsb, ?_⟩
          exact (mem_listObjByGVK_iff store groupVersion rk.kind labels
            (some o.namespaceObj) o).mpr
            ⟨ho, hav, hk, hlab, fun n hn => Option.some.inj hn⟩
        · rw [if_neg hnsb]
          exact (mem_listObjByGVK_iff store groupVersion rk.kind labels none o).mpr
            ⟨ho, hav, hk, hlab, fun n hn => nomatch hn⟩
    · by_cases hskip2 : skipDuplicateResource groupVersion rk' = true
      · rw [if_pos hskip2] at h
        exact ih hmemrest res h
      · rw [if_neg hskip2, hparse] at h
        dsimp only at h
        by_cases hexcl2 : gvkString gv.group gv.version rk'.kind ∈ excl
        · rw [if_pos hexcl2] at h
          exact ih hmemrest res h
        · rw [if_neg hexcl2] at h
          cases hrest : listResourcesForKinds store excl labels namespaces groupVersion rest with
          | error e =>
            rw [hrest] at h
            cases h
          | ok ys =>
            rw [hrest] at h
            cases h
            exact List.mem_append_right _ (ih hmemrest ys hrest)

/-- Lifting the inner-loop membership through the group loop. -/
theorem listResourcesForGroups_mem (store : List Obj) (excl : List String)
    (labels : List (String × String)) (namespaces : List String)
    (g : APIResourceList) (o : Obj)
    (hmem : ∀ xs, listResourcesForKinds store excl labels namespaces g.groupVersion
        g.apiResources = Except.ok xs → o ∈ xs) :
    ∀ groups, g ∈ groups →
      ∀ res, listResourcesForGroups store excl labels namespaces groups = Except.ok res →
        o ∈ res := by
  intro groups
  induction groups with
  | nil =>
    intro hg
    exact absurd hg (List.not_mem_nil g)
  | cons g' rest ih =>
    intro hg res h
    unfold listResourcesForGroups at h
    cases hk : listResourcesForKinds store excl labels namespaces g'.groupVersion
        g'.apiResources with
    | error e =>
      rw [hk] at h
      cases h
    | ok xs =>
      rw [hk] at h
      dsimp only at h
      cases hr : listResourcesForGroups store excl labels namespaces rest with
      | error e =>
        rw [hr] at h
        cases h
      | ok ys =>
        rw [hr] at h
        cases h
        rcases List.mem_cons.mp hg with heq | hgrest
        · subst heq
          exact List.mem_append_left _ (hmem xs hk)
        · exact List.mem_append_right _ (ih hgrest ys hr)

/-- C6. On a successful ListResources call: (1) no returned object's
(group, version, kind) belongs to the exclusion set; (2) the exclusion set
contains every declared version of every CRD that carries the provider
label or is matched when the input selector maps the clusterctl core label
to cert-manager; (3) objects of surviving kinds matching the selector (in
one of the requested namespaces when namespaced) are returned. -/
theorem C6_exclusion (store : List Obj) (resourceList : List APIResourceList)
    (crdList : List CustomResourceDefinition) (labels : List (String × String))
    (namespaces : List String) (result : List Obj)
    (hrun : ListResources store resourceList crdList labels namespaces = Except.ok result) :
    (∀ o ∈ result, ∀ gv, parseGroupVersion o.apiVersion = some gv →
        ¬ gvkString gv.group gv.version o.kind ∈ crdsToExclude labels crdList) ∧
    (∀ crd ∈ crdList,
        (lookupStr labels clusterctlCoreLabelName = some clusterctlCoreLabelCertManagerValue ∨
          (lookupStr crd.labels providerLabelName).isSome = true) →
        ∀ v ∈ crd.versions, gvkString crd.group v crd.kind ∈ crdsToExclude labels crdList) ∧
    (∀ g ∈ resourceList, ∀ rk ∈ g.apiResources, supportsAllVerbs rk = true →
        skipDuplicateResource g.groupVersion rk = false →
        ∀ gv, parseGroupVersion g.groupVersion = some gv →
        ¬ gvkString gv.group gv.version rk.kind ∈ crdsToExclude labels crdList →
        ∀ o ∈ store, o.apiVersion = g.groupVersion → o.kind = rk.kind →
        matchesLabels labels o.labels = true →
        (rk.namespaced = true → o.namespaceObj ∈ namespaces) →
        o ∈ result) := by
  unfold ListResources at hrun
  refine ⟨?_, ?_, ?_⟩
  · intro o ho gv hp
    obtain ⟨gv', hp', hne⟩ := listResourcesForGroups_excl store
      (crdsToExclude labels crdList) labels namespaces _ result hrun o ho
    have : gv = gv' := Option.some.inj (hp ▸ hp')
    rw [this]
    exact hne
  · intro crd hcrd hsel v hv
    unfold crdsToExclude
    refine (mem_concatMapList _ _ _).mpr ⟨crd, hcrd, ?_⟩
    have hcond : ((match lookupStr labels clusterctlCoreLabelName with
        | some component => (component = clusterctlCoreLabelCertManagerValue : Bool)
        | none => false) || (lookupStr crd.labels providerLabelName).isSome) = true := by
      rcases hsel with hsel | hsel
      · rw [hsel]
        simp
      · rw [hsel]
        simp
    dsimp only
    rw [hcond, if_pos rfl]
    exact List.mem_map_of_mem _ hv
  · intro g hg rk hrk hverbs hskip gv hparse hexcl o ho hav hk hlab hns
    have hg' : ({g with apiResources := g.apiResources.filter supportsAllVerbs} :
        APIResourceList) ∈ resourceList.map
          (fun x => {x with apiResources := x.apiResources.filter supportsAllVerbs}) :=
      List.mem_map_of_mem _ hg
    have hrk' : rk ∈ ({g with apiResources := g.apiResources.filter supportsAllVerbs} :
        APIResourceList).apiResources := List.mem_filter.mpr ⟨hrk, hverbs⟩
    exact listResourcesForGroups_mem store (crdsToExclude labels crdList) labels namespaces
      _ o
      (fun xs hxs => listResourcesForKinds_mem store (crdsToExclude labels crdList) labels
        namespaces g.groupVersion rk gv o hskip hparse hexcl ho hav hk hlab hns
        _ hrk' xs hxs)
      _ hg' result hrun

/-- C6, witness: with the aws-provider selector and the labeled AWSCluster
CRD (versions v1 and v2), the matching Deployment is returned while both
AWSCluster versions are in the exclusion set (and indeed no AWSCluster
object is returned). -/
theorem C6_witness :
    c6Deployment ∈ okListOf (ListResources c6Store c6ResourceList c6CrdList c6Labels
      ["default"]) ∧
    gvkString "infrastructure.cluster.x-k8s.io" "v1" "AWSCluster" ∈
      crdsToExclude c6Labels c6CrdList ∧
    gvkString "infrastructure.cluster.x-k8s.io" "v2" "AWSCluster" ∈
      crdsToExclude c6Labels c6CrdList ∧
    (∀ o ∈ okListOf (ListResources c6Store c6ResourceList c6CrdList c6Labels ["default"]),
      ¬ o.kind = "AWSCluster") := by
  refine ⟨?_, by decide, by decide, by decide⟩
  cases hrun : ListResources c6Store c6ResourceList c6CrdList c6Labels ["default"] with
  | error e =>
    have hsome : (ListResources c6Store c6ResourceList c6CrdList c6Labels
        ["default"]).toOption.isSome = true := by decide
    rw [hrun] at hsome
    simp [Except.toOption] at hsome
  | ok res =>
    have hm := (C6_exclusion c6Store c6ResourceList c6CrdList c6Labels ["default"] res
        hrun).2.2
      {groupVersion := "apps/v1",
       apiResources := [{name := "deployments", kind := "Deployment", namespaced := true,
                         verbs := ["list", "delete", "get"]}]}
      (by decide)
      {name := "deployments", kind := "Deployment", namespaced := true,
       verbs := ["list", "delete", "get"]}
      (by decide) (by decide) (by decide)
      {group := "apps", version := "v1"}
      (by decide) (by decide)
      c6Deployment (by decide) rfl rfl (by decide) (fun _ => by decide)
    simpa [okListOf, hrun] using hm

end ClusterApi
